import Mathlib

/-!
# Verification of the neo4j-mcp chat gateway and UI

Shallow embedding of the TypeScript sources of the repository:

* `src/backend/src/utils/validation.ts` (request validator, prompt sanitizer)
* `src/backend/src/services/ChatService.ts` (agent-service adapter)
* `src/backend/src/chat-api.ts` (Express chat gateway)
* `src/backend/src/utils/errors.ts` (error taxonomy and envelope)
* `src/frontend/src/lib/api.ts`, `src/frontend/src/components/chat/ChatContainer.tsx`
  (UI state machine and HTTP client)

JavaScript runtime values that flow through the request bodies and agent
message contents are modelled by the inductive type `Json`; truthiness,
`typeof`, `String(...)` coercion and `JSON.stringify` are modelled to the
depth the code exercises them.
-/

/-- Model of a JavaScript/JSON value as it appears in request bodies and
agent message contents. Numbers are modelled as integers (the code never
does arithmetic on them). -/
inductive Json where
  | null : Json
  | bool : Bool → Json
  | num : Int → Json
  | str : String → Json
  | arr : List Json → Json
  | obj : List (String × Json) → Json

/-- JavaScript truthiness of a value: `null`, `false`, `0` and the empty
string are falsy; arrays and objects are always truthy. -/
def jsTruthy : Json → Bool
  | .null => false
  | .bool b => b
  | .num n => n ≠ 0
  | .str s => s ≠ ""
  | .arr _ => true
  | .obj _ => true

/-- JavaScript `typeof` on the modelled values. `typeof null`, arrays and
objects all yield the string `object`. -/
def jsTypeof : Json → String
  | .null => "object"
  | .bool _ => "boolean"
  | .num _ => "number"
  | .str _ => "string"
  | .arr _ => "object"
  | .obj _ => "object"

/-- JSON string escaping of one character, as performed by
`JSON.stringify` on string contents. Control-character escapes are not
needed by any value the code writes and are omitted. -/
def escapeJsonChar (c : Char) : String :=
  if c = '"' then "\\\"" else if c = '\\' then "\\\\" else String.singleton c

mutual

/-- `JSON.stringify` on the modelled values. -/
def stringify : Json → String
  | .null => "null"
  | .bool true => "true"
  | .bool false => "false"
  | .num n => toString n
  | .str s => "\"" ++ String.join (s.data.map escapeJsonChar) ++ "\""
  | .arr xs => "[" ++ stringifyList xs ++ "]"
  | .obj fs => "\x7b" ++ stringifyFields fs ++ "\x7d"

/-- `JSON.stringify` of the comma-separated elements of an array. -/
def stringifyList : List Json → String
  | [] => ""
  | [x] => stringify x
  | x :: y :: rest => stringify x ++ "," ++ stringifyList (y :: rest)

/-- `JSON.stringify` of the comma-separated members of an object. -/
def stringifyFields : List (String × Json) → String
  | [] => ""
  | [(k, v)] => "\"" ++ k ++ "\":" ++ stringify v
  | (k, v) :: f :: rest => "\"" ++ k ++ "\":" ++ stringify v ++ "," ++ stringifyFields (f :: rest)

end

mutual

/-- JavaScript `String(...)` coercion on the modelled values: arrays join
their elements with commas, plain objects print as `[object Object]`. -/
def jsToString : Json → String
  | .null => "null"
  | .bool true => "true"
  | .bool false => "false"
  | .num n => toString n
  | .str s => s
  | .arr xs => jsToStringList xs
  | .obj _ => "[object Object]"

/-- `Array.prototype.toString`: elements coerced and joined with commas. -/
def jsToStringList : List Json → String
  | [] => ""
  | [x] => jsToString x
  | x :: y :: rest => jsToString x ++ "," ++ jsToStringList (y :: rest)

end

/-- JavaScript property access `v.k` for the string keys the code reads:
present object members yield their value, everything else yields
`undefined`, modelled as `none`. -/
def getField (j : Json) (k : String) : Option Json :=
  match j with
  | .obj fs => fs.lookup k
  | _ => none

/-- Truthiness of a possibly-`undefined` value (`undefined` is falsy). -/
def truthyOpt : Option Json → Bool
  | none => false
  | some v => jsTruthy v

/-- Trim whitespace from both ends of a character list
(`String.prototype.trim` at the list level). -/
def trimWs (l : List Char) : List Char :=
  ((l.dropWhile Char.isWhitespace).reverse.dropWhile Char.isWhitespace).reverse

/-- `String.prototype.trim`, modelled by trimming whitespace characters
from both ends. -/
def jsTrim (s : String) : String := ⟨trimWs s.data⟩

/-- `API_CONFIG.MAX_PROMPT_LENGTH` from `src/backend/src/constants/index.ts`. -/
def MAX_PROMPT_LENGTH : Nat := 2000

/-- The `data` member of a successful validation result
(`ChatRequest` from `src/backend/src/utils/validation.ts`): the `prompt`
and `message` fields as destructured from the body, either possibly
`undefined`. -/
structure ChatRequest where
  prompt : Option Json
  message : Option Json

/-- The discriminated result returned by `validateChatRequest`. -/
inductive ValidationResult where
  | ok (data : ChatRequest)
  | fail (errors : List String)

/-- The error strings contributed by one textual field (`prompt` or
`message`) of the request body, following the else-if chain of
`validateChatRequest`: a missing field contributes nothing; a non-string
contributes the type error; an empty-after-trim string contributes the
emptiness error; an over-long string contributes the length error. -/
def fieldErrors (name : String) (v : Option Json) : List String :=
  match v with
  | none => []
  | some (.str s) =>
      if (jsTrim s).length = 0 then ["'" ++ name ++ "' cannot be empty"]
      else if s.length > MAX_PROMPT_LENGTH then
        ["'" ++ name ++ "' cannot exceed " ++ toString MAX_PROMPT_LENGTH ++ " characters"]
      else []
  | some _ => ["'" ++ name ++ "' must be a string"]

/-- `validateChatRequest` from `src/backend/src/utils/validation.ts`:
rejects non-object bodies, requires at least one truthy field among
`prompt` and `message`, validates each provided field, and returns the
discriminated result. -/
def validateChatRequest (data : Json) : ValidationResult :=
  if ¬ jsTruthy data ∨ jsTypeof data ≠ "object" then
    .fail ["Request body must be an object"]
  else
    let prompt := getField data "prompt"
    let message := getField data "message"
    let requiredErrors :=
      if ¬ truthyOpt prompt ∧ ¬ truthyOpt message then
        ["Either 'prompt' or 'message' field is required"]
      else []
    let errors := requiredErrors ++ fieldErrors "prompt" prompt ++ fieldErrors "message" message
    if errors = [] then .ok ⟨prompt, message⟩ else .fail errors

/-- The regex replacement `replace(/\s+/g, ' ')` at the list level: every
maximal run of whitespace characters is replaced by a single space. -/
def collapseWs : List Char → List Char
  | [] => []
  | [c] => if c.isWhitespace then [' '] else [c]
  | c :: d :: rest =>
      if c.isWhitespace ∧ d.isWhitespace then collapseWs (d :: rest)
      else (if c.isWhitespace then ' ' else c) :: collapseWs (d :: rest)

/-- `sanitizePrompt` from `src/backend/src/utils/validation.ts`:
`prompt.trim().replace(/\s+/g, ' ')` — trim, then collapse each internal
whitespace run to a single space. The `substring(0, 2000)` truncation in
the source is commented out and therefore not part of the function. -/
def sanitizePrompt (prompt : String) : String :=
  ⟨collapseWs (trimWs prompt.data)⟩

/-- The JSON response body written by the `POST /chat` handler in
`src/backend/src/chat-api.ts`, together with the HTTP status used to send
it. Each optional field is `some` exactly when the handler writes that
key into the body object; the handler never writes `code` or a
`statusCode` body member. -/
structure ChatApiResp where
  status : Nat
  success : Option Bool
  prompt : Option String
  response : Option String
  error : Option String
  message : Option String
  code : Option String
  statusCodeField : Option Nat
  timestamp : Option String

/-- `extractMessageContent` from `src/backend/src/services/ChatService.ts`
(the same shape dispatch is inlined in `runChatExample` of
`src/backend/src/chat-api.ts`): a string content is returned unchanged;
an array content maps string parts to themselves and other parts through
`JSON.stringify`, joined with single spaces; any other truthy content is
coerced with `String(...)`; falsy content yields the default text. -/
def extractMessageContent (content : Json) : String :=
  match content with
  | .str s => s
  | .arr parts =>
      String.intercalate " "
        (parts.map (fun c => match c with | .str s => s | c => stringify c))
  | c => if jsTruthy c then jsToString c else "No response generated"

/-- The value of `prompt || message` after destructuring the request body
in the `POST /chat` handler: the `prompt` member if truthy, otherwise the
`message` member (possibly `undefined`). -/
def resolveUserPrompt (body : Json) : Option Json :=
  if truthyOpt (getField body "prompt") then getField body "prompt"
  else getField body "message"

/-- Outcome of `runChatExample` as observed by the `POST /chat` handler:
either the final conversation message content, or a thrown `Error`
carrying a message (every failure path in `runChatExample` throws an
`Error` instance). -/
def AgentOutcome := Except String Json

/-- The `POST /chat` handler of `src/backend/src/chat-api.ts`, lines
22-57: resolve `prompt || message`; reply 400 when the result is falsy or
not a string; otherwise run the agent and reply 200 with
`{success, prompt, response, timestamp}` on success or 500 with
`{success, error, message, timestamp}` when the agent throws. `now` is
the ISO timestamp the handler captures when building the response. -/
def postChat (body : Json) (agent : Except String Json) (now : String) : ChatApiResp :=
  match resolveUserPrompt body with
  | some (.str s) =>
      if s = "" then
        { status := 400, success := none, prompt := none, response := none,
          error := some "Bad Request",
          message := some "Please provide a \"prompt\" or \"message\" field with your question",
          code := none, statusCodeField := none, timestamp := none }
      else
        match agent with
        | .ok content =>
            { status := 200, success := some true, prompt := some s,
              response := some (extractMessageContent content),
              error := none, message := none, code := none,
              statusCodeField := none, timestamp := some now }
        | .error msg =>
            { status := 500, success := some false, prompt := none, response := none,
              error := some "Internal Server Error", message := some msg,
              code := none, statusCodeField := none, timestamp := some now }
  | _ =>
      { status := 400, success := none, prompt := none, response := none,
        error := some "Bad Request",
        message := some "Please provide a \"prompt\" or \"message\" field with your question",
        code := none, statusCodeField := none, timestamp := none }

/-- Error codes from `ERROR_CODES` in `src/backend/src/constants/index.ts`. -/
def ERROR_CODES_UNKNOWN_ERROR : String := "UNKNOWN_ERROR"

/-- A thrown value as classified by `createErrorResponse` in
`src/backend/src/utils/errors.ts`: a `ChatError` subclass instance
(carrying its own `statusCode`, `code` and construction `timestamp`), a
plain `Error`, or a non-`Error` value. No constructor carries a stack
trace, matching the fields the envelope is built from. -/
inductive ThrownError where
  | chat (message : String) (statusCode : Nat) (code : String) (timestamp : String)
  | plain (message : String)
  | nonError
deriving Repr, DecidableEq

/-- The `error` envelope of an `ErrorResponse` from
`src/backend/src/utils/errors.ts`: exactly the four members `message`,
`code`, `statusCode` and `timestamp` (no stack member exists). -/
structure ErrorEnvelope where
  message : String
  code : String
  statusCode : Nat
  timestamp : String
deriving Repr, DecidableEq

/-- `ErrorResponse` from `src/backend/src/utils/errors.ts`. -/
structure ErrorResponse where
  success : Bool
  error : ErrorEnvelope
deriving Repr, DecidableEq

/-- `createErrorResponse` from `src/backend/src/utils/errors.ts`: a
`ChatError` keeps its own fields; any other value becomes an
`UNKNOWN_ERROR` with status 500 and a fresh timestamp (`now`), with the
message taken from the `Error` or the fixed fallback text. -/
def createErrorResponse (e : ThrownError) (now : String) : ErrorResponse :=
  match e with
  | .chat message statusCode code timestamp =>
      { success := false,
        error := { message := message, code := code, statusCode := statusCode,
                   timestamp := timestamp } }
  | .plain message =>
      { success := false,
        error := { message := message, code := ERROR_CODES_UNKNOWN_ERROR,
                   statusCode := 500, timestamp := now } }
  | .nonError =>
      { success := false,
        error := { message := "An unexpected error occurred",
                   code := ERROR_CODES_UNKNOWN_ERROR,
                   statusCode := 500, timestamp := now } }

/-- The mutable per-instance state of the `ChatService` singleton
(`src/backend/src/services/ChatService.ts`): the `isInitialized` flag,
whether `initPromise` currently holds a promise, and whether the
`mcpClient` and `workflow` handles are set. -/
structure SvcState where
  isInitialized : Bool
  hasInitPromise : Bool
  hasMcpClient : Bool
  hasWorkflow : Bool
deriving Repr, DecidableEq

/-- The state of a freshly constructed `ChatService` instance. -/
def SvcState.fresh : SvcState :=
  { isInitialized := false, hasInitPromise := false,
    hasMcpClient := false, hasWorkflow := false }

/-- What one call to `ChatService.initialize` does before any awaited
promise settles: return at once because initialization already completed,
await the promise already in flight, or store a new promise and start the
one initialization attempt. -/
inductive InitAction where
  | alreadyInit
  | awaitPending
  | startNew
deriving Repr, DecidableEq

/-- The synchronous gate at the top of `ChatService.initialize` (lines
87-104): `isInitialized` short-circuits, a stored `initPromise` is
returned to be awaited, and otherwise a new `_initialize` promise is
stored and returned. -/
def initializeGate (s : SvcState) : SvcState × InitAction :=
  if s.isInitialized then (s, .alreadyInit)
  else if s.hasInitPromise then (s, .awaitPending)
  else ({ s with hasInitPromise := true }, .startNew)

/-- Run `n` calls to `initialize` arriving before any initialization
promise settles, threading the state and collecting each call's action. -/
def initializeCalls : SvcState → Nat → SvcState × List InitAction
  | s, 0 => (s, [])
  | s, n + 1 =>
      let (s1, a) := initializeGate s
      let (s2, as) := initializeCalls s1 n
      (s2, a :: as)

/-- Outcome of the external work inside `ChatService._initialize`: all
steps succeed; `getTools` yields an empty list (the method then throws
its own `Error`); or a step throws an `Error` with a message. -/
inductive InitOutcome where
  | ok
  | noTools
  | fails (msg : String)
deriving Repr, DecidableEq

/-- `ChatService._initialize` (lines 106-177) run to completion with the
given external outcome, starting from the state in which `initialize`
just stored the promise. The MCP client handle is assigned before any
failing step. On success the workflow is built and `isInitialized` is
set (the settled `initPromise` stays stored); on any failure the `catch`
clears `initPromise` and rethrows the message wrapped in
`ChatService initialization failed: `. -/
def initializeBody (s : SvcState) (o : InitOutcome) : SvcState × Except String Unit :=
  match o with
  | .ok =>
      ({ s with hasMcpClient := true, hasWorkflow := true, isInitialized := true },
       .ok ())
  | .noTools =>
      ({ s with hasMcpClient := true, hasInitPromise := false },
       .error ("ChatService initialization failed: " ++
         "No MCP tools found. Make sure the neo4j server is working correctly."))
  | .fails msg =>
      ({ s with hasMcpClient := true, hasInitPromise := false },
       .error ("ChatService initialization failed: " ++ msg))

/-- `ChatResponse` from `src/backend/src/services/ChatService.ts`. -/
structure SvcChatResponse where
  success : Bool
  response : Option String
  error : Option String
  timestamp : String

/-- The internal outcomes `ChatService.processChat` can observe inside
its `try` block: `initialize` rejects with a (wrapped) `Error` message;
the workflow handle is still null after initialization; `workflow.invoke`
rejects with an `Error` message; or the workflow resolves and its final
message carries the given content. -/
inductive RunOutcome where
  | initFails (msg : String)
  | workflowMissing
  | invokeFails (msg : String)
  | invokeOk (finalContent : Json)

/-- `ChatService.processChat` (lines 260-332): the timestamp is captured
at request receipt; the whole body is wrapped in `try`/`catch`, so every
outcome produces a resolved `ChatResponse` — success with the extracted
final-message content, or failure with the thrown error message. -/
def processChat (prompt : String) (ts : String) (o : RunOutcome) : SvcChatResponse :=
  match o with
  | .initFails msg =>
      { success := false, response := none, error := some msg, timestamp := ts }
  | .workflowMissing =>
      { success := false, response := none,
        error := some "Workflow not initialized", timestamp := ts }
  | .invokeFails msg =>
      { success := false, response := none, error := some msg, timestamp := ts }
  | .invokeOk content =>
      { success := true, response := some (extractMessageContent content),
        error := none, timestamp := ts }

/-- A transcript message from `src/frontend/src/types/chat.ts`: id, role,
content and status (timestamps are not needed by any claim and omitted). -/
structure UiMessage where
  id : Nat
  role : String
  content : String
  status : String
deriving Repr, DecidableEq

/-- The component state of `ChatContainer`
(`src/frontend/src/components/chat/ChatContainer.tsx`): the transcript,
the error banner, the thread identifier, and the fresh-identifier supply.
`generateId` in `src/frontend/src/lib/utils.ts` draws a fresh random
identifier (random base-36 digits plus the current millisecond); it is
modelled as an injective supply: the n-th draw is the identifier `n`,
and `nextDraw` counts the draws made so far. -/
structure UiState where
  messages : List UiMessage
  error : Option String
  threadId : Nat
  nextDraw : Nat
deriving Repr, DecidableEq

/-- The state after mount: the initial `useEffect` sets the thread
identifier to a first fresh draw; the transcript is empty. -/
def UiState.initial : UiState :=
  { messages := [], error := none, threadId := 0, nextDraw := 1 }

/-- `addMessage` from `ChatContainer`: append a message with a freshly
drawn id to the transcript. -/
def addMessage (s : UiState) (role content status : String) : UiState :=
  { s with
    messages := s.messages ++ [{ id := s.nextDraw, role := role, content := content,
                                 status := status }],
    nextDraw := s.nextDraw + 1 }

/-- `clearChat` from `ChatContainer` (lines 97-100): empty the transcript
and the error banner; the thread identifier is not touched. -/
def clearChat (s : UiState) : UiState :=
  { s with messages := [], error := none }

/-- `startNewChat` from `ChatContainer` (lines 102-107): draw a fresh
thread identifier, then empty the transcript and the error banner. -/
def startNewChat (s : UiState) : UiState :=
  { s with threadId := s.nextDraw, nextDraw := s.nextDraw + 1,
           messages := [], error := none }

/-- The transcript-changing interactions of `ChatContainer`: a user turn
appended by `handleSendMessage`, an assistant reply, a system error
message, the Clear button, and the New Chat button. -/
inductive UiEvent where
  | user (content : String)
  | assistant (content : String)
  | errorMsg (content : String)
  | clear
  | newChat

/-- One `ChatContainer` state transition. -/
def uiStep (s : UiState) (e : UiEvent) : UiState :=
  match e with
  | .user c => addMessage s "user" c "sent"
  | .assistant c => addMessage s "assistant" c "sent"
  | .errorMsg c => { addMessage s "system" ("Error: " ++ c) "sent" with error := some c }
  | .clear => clearChat s
  | .newChat => startNewChat s

/-- The `ChatContainer` state reached from mount by a sequence of events. -/
def uiRun (es : List UiEvent) : UiState :=
  es.foldl uiStep UiState.initial

/-- An HTTP request issued with `fetch` by the frontend API client. -/
structure FetchRequest where
  url : String
  method : String
  body : Json

/-- `API_BASE_URL` default from `src/frontend/src/lib/api.ts`. -/
def API_BASE_URL : String := "http://localhost:3001"

/-- `ChatAPI.sendMessage` from `src/frontend/src/lib/api.ts` (lines
5-21): the method has the single parameter `prompt` and posts the body
`JSON.stringify({ prompt })` to `/chat`. -/
def sendMessage (prompt : String) : FetchRequest :=
  { url := API_BASE_URL ++ "/chat", method := "POST",
    body := Json.obj [("prompt", Json.str prompt)] }

/-- The call `ChatAPI.sendMessage(content, threadId)` made by
`handleSendMessage` in `ChatContainer.tsx` line 57: JavaScript call
semantics pass the extra `threadId` argument to a method whose signature
declares only `prompt`, so the argument is dropped. -/
def handleSendMessageRequest (content threadId : String) : FetchRequest :=
  sendMessage content

/-- Claim C10: `ChatService.processChat` never rejects: every outcome
produces a resolved `ChatResponse` whose timestamp is the one captured at
request receipt; `success` holds exactly when the workflow resolved, and
every internally thrown error surfaces as `error` set to its message
instead of propagating. -/
theorem processChat_never_rejects (prompt ts : String) (o : RunOutcome) :
    (processChat prompt ts o).timestamp = ts ∧
    ((processChat prompt ts o).success = true ↔ ∃ c, o = RunOutcome.invokeOk c) ∧
    (∀ msg, o = RunOutcome.initFails msg → (processChat prompt ts o).error = some msg) ∧
    (∀ msg, o = RunOutcome.invokeFails msg → (processChat prompt ts o).error = some msg) ∧
    (o = RunOutcome.workflowMissing →
      (processChat prompt ts o).error = some "Workflow not initialized") ∧
    (∀ c, o = RunOutcome.invokeOk c →
      (processChat prompt ts o).response = some (extractMessageContent c) ∧
      (processChat prompt ts o).error = none) := by
  cases o <;> simp [processChat]

/-- Witness for C10 at a concrete outcome. -/
theorem processChat_never_rejects_witness :
    (processChat "hi" "T" (RunOutcome.invokeFails "boom")).error = some "boom" := by
  have h := processChat_never_rejects "hi" "T" (RunOutcome.invokeFails "boom")
  exact h.2.2.2.1 "boom" rfl

/-- Claim C9: the request actually issued for a UI send action. The
`ChatContainer` passes both the prompt and the thread identifier, but
`ChatAPI.sendMessage` declares only the `prompt` parameter and serializes
the body `{ prompt }`: the posted JSON body carries the prompt and no
`threadId` member, so the gateway never receives the thread identifier. -/
theorem sendMessage_body_drops_threadId :
    (handleSendMessageRequest "hello" "thread-42").body =
      Json.obj [("prompt", Json.str "hello")] ∧
    getField (handleSendMessageRequest "hello" "thread-42").body "threadId" = none ∧
    getField (handleSendMessageRequest "hello" "thread-42").body "prompt" =
      some (Json.str "hello") ∧
    (handleSendMessageRequest "hello" "thread-42").url = API_BASE_URL ++ "/chat" ∧
    (handleSendMessageRequest "hello" "thread-42").method = "POST" := by
  refine ⟨rfl, ?_, ?_, rfl, rfl⟩ <;> rfl

/-- Claim C2: for every `POST /chat` request whose agent call succeeds
(the body resolves to a truthy string prompt), the gateway responds with
status 200 and body `{success, prompt, response, timestamp}`, where
`response` is the agent's final message content extracted as text: a
string content unchanged (content `"hello"` yields `"hello"`), an array
content rendered by keeping string parts and stringifying other parts
joined with single spaces, and any other truthy content coerced with
`String(...)`. -/
theorem postChat_success_shape (body content : Json) (now s : String)
    (hs : resolveUserPrompt body = some (Json.str s)) (hne : s ≠ "") :
    postChat body (Except.ok content) now =
      { status := 200, success := some true, prompt := some s,
        response := some (extractMessageContent content),
        error := none, message := none, code := none,
        statusCodeField := none, timestamp := some now } ∧
    (postChat body (Except.ok (Json.str "hello")) now).response = some "hello" ∧
    (∀ t, extractMessageContent (Json.str t) = t) ∧
    (∀ parts, extractMessageContent (Json.arr parts) =
      String.intercalate " "
        (parts.map (fun c => match c with | Json.str u => u | c => stringify c))) ∧
    (∀ j, jsTypeof j ≠ "string" → (∀ xs, j ≠ Json.arr xs) → jsTruthy j = true →
      extractMessageContent j = jsToString j) := by
  refine ⟨?_, ?_, fun t => rfl, fun parts => rfl, ?_⟩
  · simp [postChat, hs, hne]
  · simp [postChat, hs, hne, extractMessageContent]
  · intro j hstr harr htr
    cases j <;> simp_all [jsTypeof, extractMessageContent, jsTruthy]

/-- Witness for C2 at a concrete request body and agent content. -/
theorem postChat_success_shape_witness :
    (postChat (Json.obj [("prompt", Json.str "hi")]) (Except.ok (Json.str "hello")) "T").status
      = 200 ∧
    (postChat (Json.obj [("prompt", Json.str "hi")]) (Except.ok (Json.str "hello")) "T").response
      = some "hello" := by
  have h := postChat_success_shape (Json.obj [("prompt", Json.str "hi")])
    (Json.str "hello") "T" "hi" rfl (by decide)
  exact ⟨by rw [h.1], h.2.1⟩

/-- Counterexample to claim C3 as stated: the gateway's own error
responses are not shaped into the `{message, code, statusCode, timestamp}`
envelope. The validation-failure response for an empty body carries no
`code`, no `statusCode` body member and no `timestamp`, and the
runtime-failure response carries no `code` and no `statusCode` member. -/
theorem postChat_error_envelope_counterexample :
    (postChat (Json.obj []) (Except.ok Json.null) "T0").status = 400 ∧
    (postChat (Json.obj []) (Except.ok Json.null) "T0").code = none ∧
    (postChat (Json.obj []) (Except.ok Json.null) "T0").statusCodeField = none ∧
    (postChat (Json.obj []) (Except.ok Json.null) "T0").timestamp = none ∧
    (postChat (Json.obj [("prompt", Json.str "q")]) (Except.error "boom") "T1").code = none ∧
    (postChat (Json.obj [("prompt", Json.str "q")]) (Except.error "boom") "T1").statusCodeField
      = none := by
  refine ⟨rfl, rfl, rfl, rfl, ?_, ?_⟩ <;> rfl

/-- Claim C3 (amended): when the agent runtime throws, the gateway
responds with `success:false`, status 500, a `message` equal to the
thrown error's message and a timestamp; the validation-failure response
carries only `error` and `message`. The consistent
`{message, code, statusCode, timestamp}` envelope with no stack trace is
produced by the separate `createErrorResponse` helper, which the `/chat`
endpoint does not use. -/
theorem postChat_error_shapes (body : Json) (msg now s : String)
    (hs : resolveUserPrompt body = some (Json.str s)) (hne : s ≠ "") :
    (postChat body (Except.error msg) now).status = 500 ∧
    (postChat body (Except.error msg) now).success = some false ∧
    (postChat body (Except.error msg) now).error = some "Internal Server Error" ∧
    (postChat body (Except.error msg) now).message = some msg ∧
    (postChat body (Except.error msg) now).timestamp = some now ∧
    (∀ (agent : Except String Json) (t : String),
      postChat (Json.obj []) agent t =
        { status := 400, success := none, prompt := none, response := none,
          error := some "Bad Request",
          message := some "Please provide a \"prompt\" or \"message\" field with your question",
          code := none, statusCodeField := none, timestamp := none }) ∧
    (∀ (e : ThrownError) (t : String), (createErrorResponse e t).success = false) ∧
    (∀ (m t : String), (createErrorResponse (ThrownError.plain m) t).error =
      { message := m, code := ERROR_CODES_UNKNOWN_ERROR, statusCode := 500, timestamp := t }) ∧
    (∀ (m c t0 t : String) (sc : Nat),
      (createErrorResponse (ThrownError.chat m sc c t0) t).error =
        { message := m, code := c, statusCode := sc, timestamp := t0 }) := by
  refine ⟨?_, ?_, ?_, ?_, ?_, ?_, ?_, fun m t => rfl, fun m c t0 t sc => rfl⟩
  · simp [postChat, hs, hne]
  · simp [postChat, hs, hne]
  · simp [postChat, hs, hne]
  · simp [postChat, hs, hne]
  · simp [postChat, hs, hne]
  · intro agent t
    cases agent <;> rfl
  · intro e t
    cases e <;> rfl

/-- Witness for the amended C3 at a concrete body and thrown message. -/
theorem postChat_error_shapes_witness :
    (postChat (Json.obj [("prompt", Json.str "q")]) (Except.error "boom") "T").status = 500 ∧
    (postChat (Json.obj [("prompt", Json.str "q")]) (Except.error "boom") "T").message
      = some "boom" := by
  have h := postChat_error_shapes (Json.obj [("prompt", Json.str "q")]) "boom" "T" "q"
    rfl (by decide)
  exact ⟨h.1, h.2.2.2.1⟩

/-- Counterexample to claim C4 as stated: the request body `42` misses
both the `prompt` and the `message` field, yet the validator's failure
lists only the non-object error, not that one of the two fields is
required. -/
theorem validateChatRequest_nonobject_counterexample :
    validateChatRequest (Json.num 42) =
      ValidationResult.fail ["Request body must be an object"] ∧
    ¬ ("Either 'prompt' or 'message' field is required" ∈
        ["Request body must be an object"]) := by
  exact ⟨rfl, by decide⟩

/-- Claim C4 (amended): for every input value the validator returns
without throwing a discriminated result — success, or failure with a
non-empty list of error strings; for every body passing the object check
(truthy, of object type) that lacks both the `prompt` and the `message`
field it fails listing that one of the two is required; non-object bodies
instead fail with the body-must-be-an-object error. -/
theorem validateChatRequest_discriminated (data : Json) :
    ((∃ d, validateChatRequest data = ValidationResult.ok d) ∨
     (∃ errs, validateChatRequest data = ValidationResult.fail errs ∧ errs ≠ [])) ∧
    (jsTruthy data = true → jsTypeof data = "object" →
      getField data "prompt" = none → getField data "message" = none →
      validateChatRequest data =
        ValidationResult.fail ["Either 'prompt' or 'message' field is required"]) ∧
    (jsTruthy data = false ∨ jsTypeof data ≠ "object" →
      validateChatRequest data =
        ValidationResult.fail ["Request body must be an object"]) := by
  refine ⟨?_, ?_, ?_⟩
  · unfold validateChatRequest
    split
    · exact Or.inr ⟨_, rfl, by simp⟩
    · dsimp only
      split <;> split
      all_goals first
        | exact Or.inl ⟨_, rfl⟩
        | (rename_i h; exact Or.inr ⟨_, rfl, h⟩)
  · intro h1 h2 h3 h4
    simp [validateChatRequest, h1, h2, h3, h4, truthyOpt, fieldErrors]
  · intro h
    rcases h with h | h
    · simp [validateChatRequest, h]
    · simp [validateChatRequest, h]

/-- Witness for the amended C4 at the concrete empty-object body. -/
theorem validateChatRequest_discriminated_witness :
    validateChatRequest (Json.obj []) =
      ValidationResult.fail ["Either 'prompt' or 'message' field is required"] := by
  have h := validateChatRequest_discriminated (Json.obj [])
  exact h.2.1 rfl rfl rfl rfl

/-- Dropping whitespace from an all-space list leaves nothing. -/
theorem dropWhile_ws_replicate (n : Nat) :
    (List.replicate n ' ').dropWhile Char.isWhitespace = [] := by
  induction n with
  | zero => rfl
  | succ k ih =>
      simp [List.replicate_succ, List.dropWhile_cons, ih,
        show (' '.isWhitespace) = true from rfl]

/-- Trimming an all-space list leaves nothing. -/
theorem trimWs_replicate (n : Nat) :
    trimWs (List.replicate n ' ') = [] := by
  simp [trimWs, dropWhile_ws_replicate]

/-- The validator's else-if chain reaches the emptiness error for every
non-empty prompt that trims to nothing, regardless of its length. -/
theorem validate_prompt_empty_after_trim (s : String) (hne : s ≠ "")
    (h0 : (jsTrim s).length = 0) :
    validateChatRequest (Json.obj [("prompt", Json.str s)]) =
      ValidationResult.fail ["'prompt' cannot be empty"] := by
  simp [validateChatRequest, getField, truthyOpt, jsTruthy, jsTypeof, fieldErrors,
    hne, h0, List.lookup]

/-- Counterexample to claim C5 as stated: a prompt of 2001 space
characters exceeds the configured maximum length of 2000, yet the
validator's else-if chain reaches the emptiness check first and fails
with the emptiness message, not a length-specific one. -/
theorem validateChatRequest_overlong_whitespace_counterexample :
    (String.mk (List.replicate 2001 ' ')).length > MAX_PROMPT_LENGTH ∧
    validateChatRequest
        (Json.obj [("prompt", Json.str (String.mk (List.replicate 2001 ' ')))]) =
      ValidationResult.fail ["'prompt' cannot be empty"] ∧
    ¬ ("'prompt' cannot exceed 2000 characters" ∈ ["'prompt' cannot be empty"]) := by
  have hlen : (String.mk (List.replicate 2001 ' ')).length = 2001 := by
    show (List.replicate 2001 ' ').length = 2001
    rw [List.length_replicate]
  refine ⟨by rw [hlen]; decide, ?_, by decide⟩
  apply validate_prompt_empty_after_trim
  · intro h
    rw [h] at hlen
    exact absurd hlen (by decide)
  · show (String.mk (trimWs (List.replicate 2001 ' '))).length = 0
    rw [trimWs_replicate]
    rfl

/-- Claim C5 (amended): for every prompt whose trimmed form is non-empty,
a length exceeding the configured maximum of 2000 fails with the
length-specific message and a length of exactly 2000 succeeds; an
over-long prompt that trims to nothing instead fails with the emptiness
message. -/
theorem validateChatRequest_length_boundary (s : String)
    (htrim : (jsTrim s).length ≠ 0) :
    (s.length > MAX_PROMPT_LENGTH →
      validateChatRequest (Json.obj [("prompt", Json.str s)]) =
        ValidationResult.fail ["'prompt' cannot exceed 2000 characters"]) ∧
    (s.length = MAX_PROMPT_LENGTH →
      validateChatRequest (Json.obj [("prompt", Json.str s)]) =
        ValidationResult.ok ⟨some (Json.str s), none⟩) ∧
    (∀ t : String, t ≠ "" → (jsTrim t).length = 0 →
      validateChatRequest (Json.obj [("prompt", Json.str t)]) =
        ValidationResult.fail ["'prompt' cannot be empty"]) := by
  have hne : s ≠ "" := by
    intro h
    apply htrim
    rw [h]
    rfl
  refine ⟨?_, ?_, fun t h1 h2 => validate_prompt_empty_after_trim t h1 h2⟩
  · intro hgt
    have h2 : (2000 : Nat) < s.length := hgt
    have h1 : ¬ s.length ≤ 2000 := by omega
    simp [validateChatRequest, getField, truthyOpt, jsTruthy, jsTypeof, fieldErrors,
      hne, htrim, h1, h2, List.lookup, MAX_PROMPT_LENGTH]
    rfl
  · intro heq
    have h2 : ¬ (2000 : Nat) < s.length := by
      have : s.length = 2000 := heq
      omega
    simp [validateChatRequest, getField, truthyOpt, jsTruthy, jsTypeof, fieldErrors,
      hne, htrim, h2, List.lookup, MAX_PROMPT_LENGTH]

/-- Trimming a list of copies of a non-whitespace character changes
nothing. -/
theorem trimWs_replicate_char (n : Nat) (c : Char) (hc : ¬ c.isWhitespace) :
    trimWs (List.replicate n c) = List.replicate n c := by
  have hd : ∀ m, (List.replicate m c).dropWhile Char.isWhitespace = List.replicate m c := by
    intro m
    cases m with
    | zero => rfl
    | succ k =>
        rw [List.replicate_succ, List.dropWhile_cons]
        simp [hc]
  unfold trimWs
  rw [hd, List.reverse_replicate, hd, List.reverse_replicate]

/-- Witness for the amended C5: a prompt of exactly 2000 characters that
is non-empty after trimming validates successfully. -/
theorem validateChatRequest_length_boundary_witness :
    validateChatRequest
        (Json.obj [("prompt", Json.str (String.mk (List.replicate 2000 'a')))]) =
      ValidationResult.ok ⟨some (Json.str (String.mk (List.replicate 2000 'a'))), none⟩ := by
  have htrim : (jsTrim (String.mk (List.replicate 2000 'a'))).length ≠ 0 := by
    show (String.mk (trimWs (List.replicate 2000 'a'))).length ≠ 0
    rw [trimWs_replicate_char 2000 'a' (by decide)]
    show (List.replicate 2000 'a').length ≠ 0
    rw [List.length_replicate]
    decide
  have h := validateChatRequest_length_boundary (String.mk (List.replicate 2000 'a')) htrim
  refine h.2.1 ?_
  show (List.replicate 2000 'a').length = 2000
  rw [List.length_replicate]

/-- Calls arriving while an initialization promise is pending all await
it: from a state with a stored promise and the flag unset, every call
returns `awaitPending` and leaves the state unchanged. -/
theorem initializeCalls_pending (n : Nat) :
    initializeCalls
        { isInitialized := false, hasInitPromise := true,
          hasMcpClient := false, hasWorkflow := false } n =
      ({ isInitialized := false, hasInitPromise := true,
         hasMcpClient := false, hasWorkflow := false },
       List.replicate n InitAction.awaitPending) := by
  induction n with
  | zero => rfl
  | succ k ih =>
      rw [List.replicate_succ]
      simp [initializeCalls, initializeGate, ih]

/-- Claim C1: concurrent first-time calls to `ChatService.initialize`
collapse into a single in-flight attempt. From a fresh instance, a burst
of `n ≥ 1` calls arriving before the initialization promise settles
produces exactly one `startNew` action — the first call — while every
later call awaits the same pending promise; and once `isInitialized` is
set, any call returns immediately without touching the state. -/
theorem initialize_single_flight (n : Nat) (hn : 0 < n) :
    (initializeCalls SvcState.fresh n).2 =
      InitAction.startNew :: List.replicate (n - 1) InitAction.awaitPending ∧
    (initializeCalls SvcState.fresh n).2.count InitAction.startNew = 1 ∧
    (∀ s : SvcState, s.isInitialized = true →
      initializeGate s = (s, InitAction.alreadyInit)) := by
  obtain ⟨k, rfl⟩ : ∃ k, n = k + 1 := ⟨n - 1, (Nat.succ_pred_eq_of_pos hn).symm⟩
  have hstep : initializeCalls SvcState.fresh (k + 1) =
      (({ isInitialized := false, hasInitPromise := true,
          hasMcpClient := false, hasWorkflow := false } : SvcState),
       InitAction.startNew :: List.replicate k InitAction.awaitPending) := by
    simp [initializeCalls, initializeGate, SvcState.fresh, initializeCalls_pending]
  refine ⟨by rw [hstep]; simp, ?_, ?_⟩
  · rw [hstep]
    simp [List.count_cons, List.count_replicate]
  · intro s hs
    simp [initializeGate, hs]

/-- Witness for C1 at a burst of three concurrent calls. -/
theorem initialize_single_flight_witness :
    (initializeCalls SvcState.fresh 3).2.count InitAction.startNew = 1 := by
  exact (initialize_single_flight 3 (by decide)).2.1

/-- Claim C7: every failing run of `ChatService._initialize` surfaces the
failure to the caller as a rejection whose message wraps the underlying
cause, leaves `isInitialized` false and clears the stored `initPromise`,
so the next `initialize` call starts a whole new attempt from scratch. -/
theorem initializeBody_failure_resets (s : SvcState) (o : InitOutcome)
    (hinit : s.isInitialized = false) (hno : o ≠ InitOutcome.ok) :
    (initializeBody s o).1.isInitialized = false ∧
    (initializeBody s o).1.hasInitPromise = false ∧
    (∃ m, (initializeBody s o).2 =
      Except.error ("ChatService initialization failed: " ++ m)) ∧
    initializeGate (initializeBody s o).1 =
      ({ (initializeBody s o).1 with hasInitPromise := true }, InitAction.startNew) := by
  cases o with
  | ok => exact absurd rfl hno
  | noTools =>
      refine ⟨hinit, rfl, ⟨_, rfl⟩, ?_⟩
      simp [initializeGate, initializeBody, hinit]
  | fails msg =>
      refine ⟨hinit, rfl, ⟨msg, rfl⟩, ?_⟩
      simp [initializeGate, initializeBody, hinit]

/-- Witness for C7: a failing first initialization from the state in
which the gate has just stored the promise. -/
theorem initializeBody_failure_resets_witness :
    (initializeBody
        { isInitialized := false, hasInitPromise := true,
          hasMcpClient := false, hasWorkflow := false }
        (InitOutcome.fails "connect ECONNREFUSED")).1.hasInitPromise = false := by
  exact (initializeBody_failure_resets
    { isInitialized := false, hasInitPromise := true,
      hasMcpClient := false, hasWorkflow := false }
    (InitOutcome.fails "connect ECONNREFUSED") rfl (by decide)).2.1

/-- The thread identifier held by the `ChatContainer` is always a draw
strictly older than the next one the supply will produce. -/
def UiInv (s : UiState) : Prop := s.threadId < s.nextDraw

/-- Every `ChatContainer` transition preserves the identifier invariant. -/
theorem uiStep_inv (s : UiState) (e : UiEvent) (h : UiInv s) : UiInv (uiStep s e) := by
  cases e <;>
    simp_all [uiStep, addMessage, clearChat, startNewChat, UiInv] <;> omega

/-- The identifier invariant holds in every reachable container state. -/
theorem uiRun_inv (es : List UiEvent) : UiInv (uiRun es) := by
  suffices h : ∀ (l : List UiEvent) (s : UiState), UiInv s → UiInv (l.foldl uiStep s) by
    exact h es UiState.initial (by simp [UiState.initial, UiInv])
  intro l
  induction l with
  | nil => intro s hs; exact hs
  | cons e t ih => intro s hs; exact ih (uiStep s e) (uiStep_inv s e hs)

/-- Claim C8: in every reachable `ChatContainer` state — after any
sequence of sends, replies, clears and new chats — the Clear action
empties the transcript while leaving the thread identifier unchanged,
and the New Chat action empties the transcript and installs a thread
identifier different from the current one. -/
theorem clearChat_vs_startNewChat (es : List UiEvent) :
    (clearChat (uiRun es)).messages = [] ∧
    (clearChat (uiRun es)).error = none ∧
    (clearChat (uiRun es)).threadId = (uiRun es).threadId ∧
    (startNewChat (uiRun es)).messages = [] ∧
    (startNewChat (uiRun es)).error = none ∧
    (startNewChat (uiRun es)).threadId ≠ (uiRun es).threadId := by
  have hinv := uiRun_inv es
  refine ⟨rfl, rfl, rfl, rfl, rfl, ?_⟩
  simp only [startNewChat]
  intro h
  simp only [UiInv] at hinv
  omega

/-- Unfolding equation of `collapseWs` on a list of two or more
characters. -/
theorem collapseWs_cons₂ (a d : Char) (rest : List Char) :
    collapseWs (a :: d :: rest) =
      if a.isWhitespace ∧ d.isWhitespace then collapseWs (d :: rest)
      else (if a.isWhitespace then ' ' else a) :: collapseWs (d :: rest) := rfl

/-- Unfolding equation of `collapseWs` on a singleton. -/
theorem collapseWs_one (c : Char) :
    collapseWs [c] = if c.isWhitespace then [' '] else [c] := rfl

/-- The first character `collapseWs` emits for a non-empty input is the
input's first character, with a whitespace head replaced by a space. -/
theorem collapseWs_head? (c : Char) (l : List Char) :
    (collapseWs (c :: l)).head? = some (if c.isWhitespace then ' ' else c) := by
  induction l generalizing c with
  | nil => by_cases hc : c.isWhitespace <;> simp [collapseWs_one, hc]
  | cons d t ih =>
      by_cases hcd : c.isWhitespace ∧ d.isWhitespace
      · rw [collapseWs_cons₂, if_pos hcd, ih d]
        simp [hcd.1, hcd.2]
      · rw [collapseWs_cons₂, if_neg hcd]
        simp

/-- `collapseWs` never empties a non-empty list. -/
theorem collapseWs_ne_nil (c : Char) (l : List Char) : collapseWs (c :: l) ≠ [] := by
  intro h
  have hh := collapseWs_head? c l
  rw [h] at hh
  cases hh

/-- Every whitespace character in the output of `collapseWs` is a plain
space. -/
theorem collapseWs_ws_eq_space :
    ∀ (l : List Char) (c : Char), c ∈ collapseWs l → c.isWhitespace → c = ' ' := by
  intro l
  induction l with
  | nil => intro c hc; cases hc
  | cons a t ih =>
      intro c hc hw
      cases t with
      | nil =>
          by_cases ha : a.isWhitespace
          · rw [collapseWs_one, if_pos ha] at hc
            simpa using hc
          · rw [collapseWs_one, if_neg ha] at hc
            simp at hc
            subst hc
            exact absurd hw ha
      | cons d rest =>
          by_cases hcd : a.isWhitespace ∧ d.isWhitespace
          · rw [collapseWs_cons₂, if_pos hcd] at hc
            exact ih c hc hw
          · rw [collapseWs_cons₂, if_neg hcd] at hc
            rcases List.mem_cons.mp hc with hhead | htail
            · by_cases ha : a.isWhitespace
              · rw [if_pos ha] at hhead
                exact hhead
              · rw [if_neg ha] at hhead
                subst hhead
                exact absurd hw ha
            · exact ih c htail hw

/-- The output of `collapseWs` never has two adjacent whitespace
characters. -/
theorem collapseWs_chain :
    ∀ l : List Char,
      List.Chain' (fun a b => ¬(a.isWhitespace ∧ b.isWhitespace)) (collapseWs l) := by
  intro l
  induction l with
  | nil => simp [collapseWs]
  | cons a t ih =>
      cases t with
      | nil => by_cases ha : a.isWhitespace <;> simp [collapseWs_one, ha]
      | cons d rest =>
          by_cases hcd : a.isWhitespace ∧ d.isWhitespace
          · rw [collapseWs_cons₂, if_pos hcd]
            exact ih
          · rw [collapseWs_cons₂, if_neg hcd]
            rw [List.chain'_cons']
            refine ⟨?_, ih⟩
            intro y hy
            rw [collapseWs_head? d rest] at hy
            simp at hy
            subst hy
            by_cases hd : d.isWhitespace
            · have ha : ¬ a.isWhitespace := fun ha => hcd ⟨ha, hd⟩
              simp [ha, hd]
            · simp [hd]

/-- `collapseWs` preserves a non-whitespace last character. -/
theorem collapseWs_getLast? :
    ∀ (l : List Char) (c : Char), l.getLast? = some c → ¬ c.isWhitespace →
      (collapseWs l).getLast? = some c := by
  intro l
  induction l with
  | nil => intro c h; cases h
  | cons a t ih =>
      intro c h hw
      cases t with
      | nil =>
          simp at h
          subst h
          rw [collapseWs_one, if_neg hw]
          rfl
      | cons d rest =>
          have hlast : (d :: rest).getLast? = some c := by
            rw [← List.getLast?_cons_cons]
            exact h
          by_cases hcd : a.isWhitespace ∧ d.isWhitespace
          · rw [collapseWs_cons₂, if_pos hcd]
            exact ih c hlast hw
          · rw [collapseWs_cons₂, if_neg hcd]
            obtain ⟨e, t', het⟩ : ∃ e t', collapseWs (d :: rest) = e :: t' := by
              cases hx : collapseWs (d :: rest) with
              | nil => exact absurd hx (collapseWs_ne_nil d rest)
              | cons e t' => exact ⟨e, t', rfl⟩
            rw [het, List.getLast?_cons_cons, ← het]
            exact ih c hlast hw

/-- A list with no two adjacent whitespace characters, all of whose
whitespace is plain spaces, is a fixed point of `collapseWs`. -/
theorem collapseWs_eq_self :
    ∀ l : List Char,
      List.Chain' (fun a b => ¬(a.isWhitespace ∧ b.isWhitespace)) l →
      (∀ c ∈ l, c.isWhitespace → c = ' ') → collapseWs l = l := by
  intro l
  induction l with
  | nil => intro _ _; rfl
  | cons a t ih =>
      intro h1 h2
      cases t with
      | nil =>
          by_cases ha : a.isWhitespace
          · have haeq : a = ' ' := h2 a (by simp) ha
            rw [collapseWs_one, if_pos ha, haeq]
          · rw [collapseWs_one, if_neg ha]
      | cons d rest =>
          have hcd : ¬(a.isWhitespace ∧ d.isWhitespace) := (List.chain'_cons.mp h1).1
          rw [collapseWs_cons₂, if_neg hcd]
          have htail : collapseWs (d :: rest) = d :: rest :=
            ih (List.chain'_cons.mp h1).2 (fun c hc hw => h2 c (by simp [hc]) hw)
          rw [htail]
          by_cases ha : a.isWhitespace
          · rw [if_pos ha, (h2 a (by simp) ha)]
          · rw [if_neg ha]

/-- `trimWs` written with the right-hand drop of the library. -/
theorem trimWs_eq_rdropWhile (l : List Char) :
    trimWs l = List.rdropWhile Char.isWhitespace (l.dropWhile Char.isWhitespace) := rfl

/-- A non-empty trimmed list starts with a non-whitespace character. -/
theorem trimWs_head?_not_ws (l : List Char) (c : Char)
    (h : (trimWs l).head? = some c) : ¬ c.isWhitespace := by
  obtain ⟨r, hr⟩ :=
    List.rdropWhile_prefix Char.isWhitespace (l.dropWhile Char.isWhitespace)
  rw [← trimWs_eq_rdropWhile] at hr
  have hne : trimWs l ≠ [] := by intro h0; rw [h0] at h; cases h
  obtain ⟨a, t, hat⟩ : ∃ a t, trimWs l = a :: t := by
    cases hx : trimWs l with
    | nil => exact absurd hx hne
    | cons a t => exact ⟨a, t, rfl⟩
  have hca : c = a := by
    rw [hat] at h
    simpa using h.symm
  have hhd : l.dropWhile Char.isWhitespace = a :: (t ++ r) := by
    rw [← hr, hat]
    simp
  have hwne : l.dropWhile Char.isWhitespace ≠ [] := by
    rw [hhd]
    simp
  have h1 : (l.dropWhile Char.isWhitespace).head? = some a := by
    rw [hhd]
    rfl
  have h2 := List.head?_eq_head hwne
  rw [h1] at h2
  have h3 : (l.dropWhile Char.isWhitespace).head hwne = a := (Option.some.inj h2).symm
  have h4 := List.head_dropWhile_not Char.isWhitespace l hwne
  rw [h3] at h4
  rw [hca]
  simp [h4]

/-- A non-empty trimmed list ends with a non-whitespace character. -/
theorem trimWs_getLast?_not_ws (l : List Char) (c : Char)
    (h : (trimWs l).getLast? = some c) : ¬ c.isWhitespace := by
  have hne : trimWs l ≠ [] := by intro h0; rw [h0] at h; cases h
  have hlast := List.rdropWhile_last_not Char.isWhitespace
    (l.dropWhile Char.isWhitespace) hne
  have h2 := List.getLast?_eq_getLast_of_ne_nil hne
  rw [h2] at h
  have h3 : (trimWs l).getLast hne = c := Option.some.inj h
  intro hc
  apply hlast
  rw [show (List.rdropWhile Char.isWhitespace
      (l.dropWhile Char.isWhitespace)).getLast hne = c from h3]
  exact hc

/-- A list that neither starts nor ends with whitespace is a fixed point
of `trimWs`. -/
theorem trimWs_eq_self (l : List Char)
    (h1 : ∀ c, l.head? = some c → ¬ c.isWhitespace)
    (h2 : ∀ c, l.getLast? = some c → ¬ c.isWhitespace) :
    trimWs l = l := by
  have hd : l.dropWhile Char.isWhitespace = l := by
    cases l with
    | nil => rfl
    | cons a t =>
        rw [List.dropWhile_cons]
        simp [h1 a rfl]
  rw [trimWs_eq_rdropWhile, hd, List.rdropWhile_eq_self_iff]
  intro hl
  exact h2 _ (List.getLast?_eq_getLast_of_ne_nil hl)

/-- A list with no whitespace at all trivially has no adjacent
whitespace pair. -/
theorem chain'_of_no_ws (l : List Char) (h : ∀ c ∈ l, ¬ c.isWhitespace) :
    List.Chain' (fun a b => ¬(a.isWhitespace ∧ b.isWhitespace)) l := by
  induction l with
  | nil => simp
  | cons a t ih =>
      rw [List.chain'_cons']
      refine ⟨fun y hy hab => ?_, ih (fun c hc => h c (List.mem_cons_of_mem a hc))⟩
      exact h a (by simp) hab.1

/-- Claim C6: the prompt sanitizer collapses every internal whitespace
run to a single space and trims the ends, with no truncation — a
whitespace-free string of any length passes through unchanged — and it is
idempotent; in particular it maps the two example inputs of the
specification as stated. -/
theorem sanitizePrompt_contract :
    sanitizePrompt "  a   b  " = "a b" ∧
    sanitizePrompt "" = "" ∧
    (∀ x : String, (∀ c ∈ x.data, ¬ c.isWhitespace) → sanitizePrompt x = x) ∧
    (∀ x : String, sanitizePrompt (sanitizePrompt x) = sanitizePrompt x) := by
  refine ⟨rfl, rfl, ?_, ?_⟩
  · intro x hx
    have hhead : ∀ c, x.data.head? = some c → ¬ c.isWhitespace := by
      intro c hc
      refine hx c (List.mem_of_mem_head? ?_)
      rw [hc]
      rfl
    have hlast : ∀ c, x.data.getLast? = some c → ¬ c.isWhitespace := by
      intro c hc
      refine hx c (List.mem_of_mem_getLast? ?_)
      rw [hc]
      rfl
    show String.mk (collapseWs (trimWs x.data)) = x
    rw [trimWs_eq_self x.data hhead hlast,
      collapseWs_eq_self x.data (chain'_of_no_ws x.data hx)
        (fun c hc hw => absurd hw (hx c hc))]
  · intro x
    show String.mk (collapseWs (trimWs (sanitizePrompt x).data)) = sanitizePrompt x
    have hdata : (sanitizePrompt x).data = collapseWs (trimWs x.data) := rfl
    rw [hdata]
    have hhead : ∀ c, (collapseWs (trimWs x.data)).head? = some c →
        ¬ c.isWhitespace := by
      intro c hc
      cases hm : trimWs x.data with
      | nil =>
          rw [hm] at hc
          cases hc
      | cons a t =>
          rw [hm, collapseWs_head? a t] at hc
          have ha : ¬ a.isWhitespace := by
            refine trimWs_head?_not_ws x.data a ?_
            rw [hm]
            rfl
          rw [if_neg ha] at hc
          rw [← Option.some.inj hc]
          exact ha
    have hlast : ∀ c, (collapseWs (trimWs x.data)).getLast? = some c →
        ¬ c.isWhitespace := by
      intro c hc
      cases hm : (trimWs x.data).getLast? with
      | none =>
          rw [List.getLast?_eq_none_iff.mp hm] at hc
          cases hc
      | some c0 =>
          have hw0 : ¬ c0.isWhitespace := trimWs_getLast?_not_ws x.data c0 hm
          rw [collapseWs_getLast? (trimWs x.data) c0 hm hw0] at hc
          rw [← Option.some.inj hc]
          exact hw0
    rw [trimWs_eq_self _ hhead hlast,
      collapseWs_eq_self _ (collapseWs_chain (trimWs x.data))
        (collapseWs_ws_eq_space (trimWs x.data))]
    rfl

/-- Witness for C6: the no-truncation clause applied to a concrete
whitespace-free string. -/
theorem sanitizePrompt_contract_witness : sanitizePrompt "abc" = "abc" := by
  exact sanitizePrompt_contract.2.2.1 "abc" (by decide)

/-- Witness for C8 at a concrete event history: one user turn and one
assistant reply, then Clear keeps the thread while New Chat changes it. -/
theorem clearChat_vs_startNewChat_witness :
    (clearChat (uiRun [UiEvent.user "hi", UiEvent.assistant "hello"])).threadId =
      (uiRun [UiEvent.user "hi", UiEvent.assistant "hello"]).threadId ∧
    (startNewChat (uiRun [UiEvent.user "hi", UiEvent.assistant "hello"])).threadId ≠
      (uiRun [UiEvent.user "hi", UiEvent.assistant "hello"]).threadId := by
  have h := clearChat_vs_startNewChat [UiEvent.user "hi", UiEvent.assistant "hello"]
  exact ⟨h.2.2.1, h.2.2.2.2.2⟩
